import Mathlib

/-! Verification of `src/ossf_malicious_packages_connector.py`.

The connector's pure core is shallowly embedded below:
* `Json` models the Python values obtained from `json.load`, together with
  Python truthiness (`truthy`) and attribute-style dictionary access
  (`dictGet`), whose failure on non-dict values models Python's
  `AttributeError`.
* `createObjectsForEntry` embeds `_create_objects_for_entry`.
* `getChangedFiles` embeds `_get_changed_files` (the `os.walk` listing and
  the `git diff` output are modelled as explicit inputs of the run).
* `chunksOf`, `runDispatchLoop`, `dispatchTry` and `processOnceTail` embed
  steps 4-7 of `_process_once` (accumulation, chunked dispatch, state
  update, work completion).
-/

/-- Python exception kinds raised by the embedded code. -/
inductive PyError where
  | nameError
  | attributeError
deriving DecidableEq

/-- A parsed JSON value, as produced by Python's `json.load`.  Objects are
association lists; `json.load` never yields duplicate keys, so lookup order
is immaterial. -/
inductive Json where
  | null
  | bool (b : Bool)
  | num (n : Int)
  | str (s : String)
  | arr (elems : List Json)
  | obj (fields : List (String × Json))

/-- First-match association-list lookup inside a JSON object. -/
def jLookup : List (String × Json) → String → Option Json
  | [], _ => none
  | (k, v) :: rest, key => if k = key then some v else jLookup rest key

/-- Python truthiness of a JSON value (`bool(x)`): `None`, `False`, `0`,
`""`, `[]` and `{ }` are falsy, everything else is truthy. -/
def truthy : Json → Bool
  | .null => false
  | .bool b => b
  | .num n => if n = 0 then false else true
  | .str s => if s = "" then false else true
  | .arr xs => if xs.isEmpty then false else true
  | .obj fs => if fs.isEmpty then false else true

/-- Python `x.get(k)`: defined on dicts (returning `None` when the key is
absent); on any non-dict value the attribute access raises
`AttributeError`. -/
def dictGet (j : Json) (k : String) : Except PyError Json :=
  match j with
  | .obj fs => .ok ((jLookup fs k).getD .null)
  | _ => .error .attributeError

/-- Python `x.get(k, d)` with an explicit default. -/
def dictGetD (j : Json) (k : String) (d : Json) : Except PyError Json :=
  match j with
  | .obj fs => .ok ((jLookup fs k).getD d)
  | _ => .error .attributeError

/-- Python `str(x)` as used by the f-string interpolations of the source;
the container cases are stand-ins (never reached on well-typed feed data,
where `id` and `sha256` are strings). -/
def pyStr : Json → String
  | .null => "None"
  | .bool true => "True"
  | .bool false => "False"
  | .num n => toString n
  | .str s => s
  | .arr _ => "[list]"
  | .obj _ => "[dict]"

/-- A single-quote character, used when assembling the STIX pattern. -/
def squote : String := String.singleton (Char.ofNat 39)

/-- Line 195: `pattern = f"[file:hashes.'SHA-256' = '{sha256}']"`. -/
def mkPattern (sha : String) : String :=
  "[file:hashes." ++ squote ++ "SHA-256" ++ squote ++ " = " ++ squote ++ sha ++ squote ++ "]"

/-- Line 22: the TLP:CLEAR marking-definition STIX id. -/
def TLP_CLEAR_ID : String :=
  "marking-definition--613f2e26-407d-48c7-9eca-b8e91df99dc9"

/-- Deterministic STIX identifiers, modelled by the data they are derived
from: `stix2.File` ids are a UUIDv5 of the id-contributing properties the
source supplies (`name` and the SHA-256 hash), `pycti`'s
`Indicator.generate_id` is a deterministic function of the pattern string,
and `StixCoreRelationship.generate_id` of the relationship kind and the two
endpoint identifiers.  Constructor injectivity models the collision-freeness
of these derivations. -/
inductive StixId where
  | file (fname : Json) (sha : Json)
  | indicator (pat : String)
  | relationship (kind : String) (src : StixId) (tgt : StixId)

/-- The `stix2.File` observable built at lines 198-205. -/
structure FileSco where
  fname : Json
  sha256 : Json
  description : Json
  markings : List String

/-- The deterministic identifier of a `FileSco`. -/
def FileSco.sid (f : FileSco) : StixId := .file f.fname f.sha256

/-- The `stix2.Indicator` built at lines 214-226. -/
structure IndicatorObj where
  id : StixId
  iname : String
  description : Json
  pat : String
  pattern_type : String
  source_url : String
  markings : List String
  score : Int

/-- The `stix2.Relationship` built at lines 233-245. -/
structure RelationshipObj where
  id : StixId
  relationship_type : String
  source_ref : StixId
  target_ref : StixId
  markings : List String

/-- A STIX object accumulated into `all_objects`. -/
inductive StixObject where
  | file (f : FileSco)
  | indicator (i : IndicatorObj)
  | relationship (r : RelationshipObj)

/-- Line 176: `summary = osv_data.get("summary") or osv_data.get("details")
or "Malicious package"` — Python `or` returns its first truthy operand. -/
def pySummary (osv_data : Json) : Except PyError Json :=
  match dictGet osv_data "summary" with
  | .error e => .error e
  | .ok s1 =>
    if truthy s1 then .ok s1
    else
      match dictGet osv_data "details" with
      | .error e => .error e
      | .ok s2 => .ok (if truthy s2 then s2 else .str "Malicious package")

/-- Line 185: `db_spec.get(k) or db_spec.get(k)` (the `.replace("_", "-")`
in the source is the identity on a key that contains no underscore, so both
operands read the same key). -/
def pyOrGet (d : Json) (k : String) : Except PyError Json :=
  match dictGet d k with
  | .error e => .error e
  | .ok v => if truthy v then .ok v else dictGet d k

/-- Lines 183-188: `sha256 = None`, then if `origins` is a non-empty list,
`sha256 = origins[0].get("sha256")` — an attribute access that raises when
the first entry is not a dict. -/
def extractSha (origins : Json) : Except PyError Json :=
  match origins with
  | .arr (first :: _) => dictGet first "sha256"
  | _ => .ok .null

/-- Lines 195-247: the three STIX objects built for one validated record,
in emission order (observable, indicator, relationship). -/
def mkTriple (osv_id summary sha256 : Json) (source_url : String)
    (score : Int) : List StixObject :=
  let pat := mkPattern (pyStr sha256)
  let file_sco : FileSco := ⟨osv_id, sha256, summary, [TLP_CLEAR_ID]⟩
  let indicator : IndicatorObj :=
    ⟨.indicator pat, "Malicious package " ++ pyStr osv_id, summary,
      mkPattern (pyStr sha256), "stix", source_url, [TLP_CLEAR_ID], score⟩
  let relation : RelationshipObj :=
    ⟨.relationship "based-on" indicator.id file_sco.sid, "based-on",
      indicator.id, file_sco.sid, [TLP_CLEAR_ID]⟩
  [.file file_sco, .indicator indicator, .relationship relation]

/-- Lines 166-248: `_create_objects_for_entry`, with Python's evaluation
order (id and summary lookups, the falsy-id early return, the
`database_specific` and origin lookups, the falsy-sha early return, then
the triple). -/
def createObjectsForEntry (osv_data : Json) (source_url : String)
    (default_score : Int) : Except PyError (List StixObject) :=
  match dictGet osv_data "id" with
  | .error e => .error e
  | .ok osv_id =>
    match pySummary osv_data with
    | .error e => .error e
    | .ok summary =>
      if ¬ truthy osv_id then .ok []
      else
        match dictGetD osv_data "database_specific" (.obj []) with
        | .error e => .error e
        | .ok db_spec =>
          match pyOrGet db_spec "malicious-packages-origins" with
          | .error e => .error e
          | .ok origins =>
            match extractSha origins with
            | .error e => .error e
            | .ok sha256 =>
              if ¬ truthy sha256 then .ok []
              else .ok (mkTriple osv_id summary sha256 source_url default_score)

/-! Change-set resolution (`_get_changed_files`, lines 108-141). -/

/-- Python `s.endswith(suf)`, computed over the character sequences (the
Lean kernel evaluates these on literals, unlike `String.endsWith`). -/
def strEndsWith (s suf : String) : Bool := List.isSuffixOf suf.data s.data

/-- Python-style prefix test over character sequences, used for the git
pathspec. -/
def strStartsWith (s pre : String) : Bool := List.isPrefixOf pre.data s.data

/-- String-valued association-list lookup (connector state maps, commit
snapshots). -/
def kvLookup : List (String × String) → String → Option String
  | [], _ => none
  | (k, v) :: rest, key => if k = key then some v else kvLookup rest key

/-- The external inputs of one run: the configured local checkout path, the
directory listing `os.walk` produces under `<localPath>/osv/malicious`
(pairs of a directory path and the file names directly inside it, visited
recursively by `os.walk`), and for each commit hash the snapshot of the
repository as a finite map from repo-relative path to blob content. -/
structure Repo where
  localPath : String
  osWalkMalicious : List (String × List String)
  rev : String → List (String × String)

/-- Does a repo-relative path fall under the `osv/malicious` pathspec of
the diff command? -/
def underPathspec (p : String) : Bool :=
  p == "osv/malicious" || strStartsWith p "osv/malicious/"

/-- Modelled semantics of the external command
`git diff --name-only old..new -- osv/malicious` (line 126-136): every path
restricted to the pathspec whose blob content differs between the two
commits is listed — added, modified, and also deleted paths. -/
def gitDiffNameOnly (a b : List (String × String)) : List String :=
  ((a.map Prod.fst ++ b.map Prod.fst).dedup).filter
    (fun p => underPathspec p && !(kvLookup a p == kvLookup b p))

/-- Lines 119-123: the nested `os.walk` loop collecting
`os.path.join(root, f)` for every listed file name ending in `.json`. -/
def collectJson : List (String × List String) → List String
  | [] => []
  | (root, fnames) :: rest =>
    (fnames.filter (fun f => strEndsWith f ".json")).map (fun f => root ++ "/" ++ f)
      ++ collectJson rest

/-- Lines 108-141: `_get_changed_files`.  With no previous commit it walks
the checkout under `osv/malicious`; otherwise it filters the `git diff`
output to `.json` paths and prefixes the local checkout path. -/
def getChangedFiles (repo : Repo) (old_commit : Option String)
    (new_commit : String) : List String :=
  match old_commit with
  | none => collectJson repo.osWalkMalicious
  | some old =>
    ((gitDiffNameOnly (repo.rev old) (repo.rev new_commit)).filter
        (fun p => strEndsWith p ".json")).map
      (fun p => repo.localPath ++ "/" ++ p)

/-! Accumulation and chunked dispatch (`_process_once`, lines 253-344). -/

/-- Lines 279-292: the per-file loop.  Each entry carries the result of
`_parse_osv_json` (`none` models the swallowed open/parse exception of
lines 146-152) and the GitHub blob URL built for the file.  Falsy parse
results are skipped (`if not parsed`), empty object lists are skipped
(`if not objs`), and an exception raised by `_create_objects_for_entry`
propagates — there is no try/except around this loop. -/
def accumulateObjects :
    List (Option Json × String) → Int → Except PyError (List StixObject)
  | [], _ => .ok []
  | (parsed, url) :: rest, score =>
    match parsed with
    | none => accumulateObjects rest score
    | some j =>
      if ¬ truthy j then accumulateObjects rest score
      else
        match createObjectsForEntry j url score with
        | .error e => .error e
        | .ok objs =>
          if objs.isEmpty then accumulateObjects rest score
          else
            match accumulateObjects rest score with
            | .error e => .error e
            | .ok restObjs => .ok (objs ++ restObjs)

/-- Line 298: `CHUNK_SIZE = 5000`. -/
def CHUNK_SIZE : Nat := 5000

/-- Successive slices `all_objects[i : i + n]` for `i in range(0, total, n)`
(lines 307-309).  The fuel argument equals the list length; each step
consumes at least one element when `n ≥ 1`, so the fuel never runs out for
the chunk size the source uses. -/
def chunksGo (n : Nat) : Nat → List StixObject → List (List StixObject)
  | _, [] => []
  | 0, _ :: _ => []
  | fuel + 1, x :: xs => ((x :: xs).take n) :: chunksGo n fuel ((x :: xs).drop n)

/-- The chunk decomposition of the accumulated object list. -/
def chunksOf (n : Nat) (l : List StixObject) : List (List StixObject) :=
  chunksGo n l.length l

/-- The body of the dispatch loop (lines 308-319): it evaluates
`self.helper.stix2_create_bundle(chunck)` — and `chunck` is an undefined
name (the slice two lines above is bound to `chunk`), so Python raises
`NameError` here, before `send_stix2_bundle` can be reached. -/
def loopBody (_chunk : List StixObject) : Except PyError (List StixObject) :=
  .error .nameError

/-- The dispatch loop (lines 306-319): runs the body on each chunk in
order, recording the chunks whose send completed, and stops at the first
raised exception. -/
def runDispatchLoop :
    List (List StixObject) → List (List StixObject) →
      List (List StixObject) × Option PyError
  | sent, [] => (sent, none)
  | sent, c :: cs =>
    match loopBody c with
    | .error e => (sent, some e)
    | .ok b => runDispatchLoop (sent ++ [b]) cs

/-- The whole `try` block of lines 305-319: the chunks sent before the
first failure, and the exception caught by line 321 (if any). -/
def dispatchTry (all_objects : List StixObject) :
    List (List StixObject) × Option PyError :=
  runDispatchLoop [] (chunksOf CHUNK_SIZE all_objects)

/-- The observable outcome of one `_process_once` run past change
resolution: the chunk sends that were issued, the state map passed to
`set_state` (or `none` when `set_state` was never called), and whether the
work was marked as successfully processed. -/
structure RunOutcome where
  sends : List (List StixObject)
  stateWritten : Option (List (String × String))
  workMessageOk : Bool

/-- Steps 4-7 of `_process_once` (lines 279-344): accumulate objects over
the changed files; if there are none, fall through to the state update;
otherwise run the guarded dispatch loop — on an exception log, mark the
work failed and return WITHOUT updating state (lines 321-328); otherwise
write `{"last_commit": current_head, "last_run": now}` and mark the work
processed.  An exception escaping the accumulation loop propagates out of
`_process_once` (it is only caught by the outer `run` loop). -/
def processOnceTail (current_head now : String)
    (files : List (Option Json × String)) (score : Int) :
    Except PyError RunOutcome :=
  match accumulateObjects files score with
  | .error e => .error e
  | .ok all_objects =>
    if all_objects.isEmpty then
      .ok ⟨[], some [("last_commit", current_head), ("last_run", now)], true⟩
    else
      match dispatchTry all_objects with
      | (sent, some _) => .ok ⟨sent, none, false⟩
      | (sent, none) =>
        .ok ⟨sent, some [("last_commit", current_head), ("last_run", now)], true⟩

/-- The connector state after a run, given the state before it: the map
passed to `set_state`, or the unchanged previous state when `set_state`
was never called. -/
def stateAfter (prev : Option (List (String × String))) (o : RunOutcome) :
    Option (List (String × String)) :=
  match o.stateWritten with
  | some s => some s
  | none => prev

/-- Lines 267-268: `state = self.helper.get_state() or {}` followed by
`state.get("last_commit")`. -/
def readLastCommit (state : Option (List (String × String))) : Option String :=
  kvLookup (state.getD []) "last_commit"

/-! Helper lemmas. -/

/-- The summary value line 176 computes for a JSON-object record. -/
def summaryOf (fs : List (String × Json)) : Json :=
  let s1 := (jLookup fs "summary").getD .null
  let s2 := (jLookup fs "details").getD .null
  if truthy s1 then s1 else if truthy s2 then s2 else .str "Malicious package"

theorem pySummary_obj (fs : List (String × Json)) :
    pySummary (.obj fs) = .ok (summaryOf fs) := by
  simp only [pySummary, dictGet, summaryOf]
  split <;> simp_all

theorem create_obj (fs : List (String × Json)) (u : String) (s : Int) :
    createObjectsForEntry (.obj fs) u s =
      (if ¬ truthy ((jLookup fs "id").getD .null) then .ok []
       else
         match pyOrGet ((jLookup fs "database_specific").getD (.obj []))
             "malicious-packages-origins" with
         | .error e => .error e
         | .ok origins =>
           match extractSha origins with
           | .error e => .error e
           | .ok sha256 =>
             if ¬ truthy sha256 then .ok []
             else .ok (mkTriple ((jLookup fs "id").getD .null) (summaryOf fs)
                 sha256 u s)) := by
  simp only [createObjectsForEntry, dictGet, dictGetD, pySummary_obj]

theorem create_ok_parts {j : Json} {u : String} {s : Int} {f : FileSco}
    {i : IndicatorObj} {r : RelationshipObj}
    (h : createObjectsForEntry j u s =
      .ok [.file f, .indicator i, .relationship r]) :
    ∃ fs, j = .obj fs ∧
      truthy f.fname = true ∧ truthy f.sha256 = true ∧
      f.fname = (jLookup fs "id").getD .null ∧
      f.description = summaryOf fs ∧
      i.description = summaryOf fs ∧
      f.markings = [TLP_CLEAR_ID] ∧ i.markings = [TLP_CLEAR_ID] ∧
      r.markings = [TLP_CLEAR_ID] ∧
      i.pat = mkPattern (pyStr f.sha256) ∧
      i.id = .indicator (mkPattern (pyStr f.sha256)) ∧
      i.score = s ∧ i.source_url = u ∧
      r.relationship_type = "based-on" ∧
      r.id = .relationship "based-on" i.id f.sid ∧
      r.source_ref = i.id ∧ r.target_ref = f.sid := by
  obtain ⟨fn, fsha, fdesc, fmk⟩ := f
  obtain ⟨iid, inm, idesc, ipat, ipt, iurl, imk, isc⟩ := i
  obtain ⟨rid, rt, rsrc, rtgt, rmk⟩ := r
  cases j with
  | obj fs =>
    rw [create_obj] at h
    split at h
    · exact absurd h (by simp)
    · split at h
      · exact absurd h (by simp)
      · split at h
        · exact absurd h (by simp)
        · split at h
          · exact absurd h (by simp)
          · simp only [mkTriple, Except.ok.injEq, List.cons.injEq,
              StixObject.file.injEq, StixObject.indicator.injEq,
              StixObject.relationship.injEq, FileSco.mk.injEq,
              IndicatorObj.mk.injEq, RelationshipObj.mk.injEq, and_true] at h
            obtain ⟨⟨e1, e2, e3, e4⟩, ⟨e5, e6, e7, e8, e9, e10, e11, e12⟩,
              e13, e14, e15, e16, e17⟩ := h
            subst e1 e2 e3 e4 e5 e6 e7 e8 e9 e10 e11 e12 e13 e14 e15 e16 e17
            refine ⟨fs, rfl, not_not.mp (by assumption),
              not_not.mp (by assumption), rfl, rfl, rfl, rfl, rfl, rfl, rfl,
              rfl, rfl, rfl, rfl, rfl, rfl, rfl⟩
  | null => simp [createObjectsForEntry, dictGet] at h
  | bool b => simp [createObjectsForEntry, dictGet] at h
  | num n => simp [createObjectsForEntry, dictGet] at h
  | str st => simp [createObjectsForEntry, dictGet] at h
  | arr xs => simp [createObjectsForEntry, dictGet] at h

theorem create_ok_shape {j : Json} {u : String} {s : Int}
    {l : List StixObject} (h : createObjectsForEntry j u s = .ok l) :
    l = [] ∨ ∃ f i r, l = [.file f, .indicator i, .relationship r] := by
  cases j with
  | obj fs =>
    rw [create_obj] at h
    split at h
    · injection h with h
      exact Or.inl h.symm
    · split at h
      · exact absurd h (by simp)
      · split at h
        · exact absurd h (by simp)
        · split at h
          · injection h with h
            exact Or.inl h.symm
          · injection h with h
            exact Or.inr ⟨_, _, _, h.symm⟩
  | null => simp [createObjectsForEntry, dictGet] at h
  | bool b => simp [createObjectsForEntry, dictGet] at h
  | num n => simp [createObjectsForEntry, dictGet] at h
  | str st => simp [createObjectsForEntry, dictGet] at h
  | arr xs => simp [createObjectsForEntry, dictGet] at h

/-! Claim C3. -/

/-- C3: for every validated record, building its object graph twice with
the same provenance URL and score yields identical Indicator and
Relationship identifiers; the indicator identifier is the deterministic
function of the pattern string built from the record's hash, and the
relationship identifier the deterministic function of the kind "based-on",
the indicator identifier and the observable identifier. -/
theorem c3_deterministic_identifiers (j : Json) (u : String) (s : Int)
    (f f' : FileSco) (i i' : IndicatorObj) (r r' : RelationshipObj)
    (h : createObjectsForEntry j u s =
      .ok [.file f, .indicator i, .relationship r])
    (h' : createObjectsForEntry j u s =
      .ok [.file f', .indicator i', .relationship r']) :
    i.id = i'.id ∧ r.id = r'.id ∧
    i.id = StixId.indicator (mkPattern (pyStr f.sha256)) ∧
    r.id = StixId.relationship "based-on" i.id f.sid := by
  have heq := h.symm.trans h'
  simp only [Except.ok.injEq, List.cons.injEq, and_true,
    StixObject.file.injEq, StixObject.indicator.injEq,
    StixObject.relationship.injEq] at heq
  obtain ⟨hf, hi, hr⟩ := heq
  subst hf hi hr
  obtain ⟨fs, -, -, -, -, -, -, -, -, -, -, hiid, -, -, -, hrid, -, -⟩ :=
    create_ok_parts h
  exact ⟨rfl, rfl, hiid, hrid⟩

def rec3 : Json := .obj [("id", .str "MAL-1"), ("summary", .str "bad pkg"),
  ("database_specific", .obj [("malicious-packages-origins",
    .arr [.obj [("sha256", .str "abc123")]])])]

def f3 : FileSco := ⟨.str "MAL-1", .str "abc123", .str "bad pkg",
  [TLP_CLEAR_ID]⟩

def i3 : IndicatorObj := ⟨.indicator (mkPattern "abc123"),
  "Malicious package MAL-1", .str "bad pkg", mkPattern "abc123", "stix",
  "https-src", [TLP_CLEAR_ID], 80⟩

def r3 : RelationshipObj := ⟨.relationship "based-on"
    (.indicator (mkPattern "abc123")) (.file (.str "MAL-1") (.str "abc123")),
  "based-on", .indicator (mkPattern "abc123"),
  .file (.str "MAL-1") (.str "abc123"), [TLP_CLEAR_ID]⟩

/-- Witness for C3 at a concrete record. -/
theorem c3_deterministic_identifiers_witness :
    createObjectsForEntry rec3 "https-src" 80 =
      .ok [.file f3, .indicator i3, .relationship r3] ∧
    (i3.id = i3.id ∧ r3.id = r3.id ∧
      i3.id = StixId.indicator (mkPattern (pyStr f3.sha256)) ∧
      r3.id = StixId.relationship "based-on" i3.id f3.sid) :=
  ⟨rfl, c3_deterministic_identifiers rec3 "https-src" 80 f3 f3 i3 i3 r3 r3
    rfl rfl⟩

/-! Claim C9. -/

/-- C9: the summary fallback chain treats an empty string like an absent
field — when the record's "summary" field is present but equal to "", the
built objects carry the "details" text, and when "details" is also absent
or falsy they carry the fixed placeholder "Malicious package". -/
theorem c9_empty_summary_falls_back (fs : List (String × Json)) (u : String)
    (s : Int) (f : FileSco) (i : IndicatorObj) (r : RelationshipObj)
    (hsum : jLookup fs "summary" = some (.str ""))
    (h : createObjectsForEntry (.obj fs) u s =
      .ok [.file f, .indicator i, .relationship r]) :
    f.description = i.description ∧
    (truthy ((jLookup fs "details").getD .null) = true →
      f.description = (jLookup fs "details").getD .null) ∧
    (truthy ((jLookup fs "details").getD .null) = false →
      f.description = .str "Malicious package") := by
  obtain ⟨fs', hj, -, -, -, hfdesc, hidesc, -, -, -, -, -, -, -, -, -, -, -⟩ :=
    create_ok_parts h
  injection hj with hj
  subst hj
  refine ⟨by rw [hfdesc, hidesc], ?_, ?_⟩
  · intro hd
    rw [hfdesc]
    simp [summaryOf, hsum, hd, show truthy (Json.str "") = false from rfl]
  · intro hd
    rw [hfdesc]
    simp [summaryOf, hsum, hd, show truthy (Json.str "") = false from rfl]

def rec9fs : List (String × Json) := [("id", .str "C9"),
  ("summary", .str ""), ("details", .str "D9"),
  ("database_specific", .obj [("malicious-packages-origins",
    .arr [.obj [("sha256", .str "sha99")]])])]

def f9 : FileSco := ⟨.str "C9", .str "sha99", .str "D9", [TLP_CLEAR_ID]⟩

def i9 : IndicatorObj := ⟨.indicator (mkPattern "sha99"),
  "Malicious package C9", .str "D9", mkPattern "sha99", "stix", "u9",
  [TLP_CLEAR_ID], 3⟩

def r9 : RelationshipObj := ⟨.relationship "based-on"
    (.indicator (mkPattern "sha99")) (.file (.str "C9") (.str "sha99")),
  "based-on", .indicator (mkPattern "sha99"),
  .file (.str "C9") (.str "sha99"), [TLP_CLEAR_ID]⟩

/-- Witness for C9 at a concrete record with summary "" and details "D9". -/
theorem c9_empty_summary_falls_back_witness :
    jLookup rec9fs "summary" = some (.str "") ∧
    (f9.description = i9.description ∧
      (truthy ((jLookup rec9fs "details").getD .null) = true →
        f9.description = (jLookup rec9fs "details").getD .null) ∧
      (truthy ((jLookup rec9fs "details").getD .null) = false →
        f9.description = .str "Malicious package")) :=
  ⟨rfl, c9_empty_summary_falls_back rec9fs "u9" 3 f9 i9 r9 rfl rfl⟩

/-! Claim C10. -/

/-- C10: the observable's identifier depends on the record id as well as
the hash — two validated records with identical sha256 but distinct ids
yield distinct File observable identifiers (the record id is the file's
name, an id-contributing property), hence distinct relationship
identifiers, while their indicator identifiers coincide. -/
theorem c10_observable_identity_depends_on_record_id
    (j1 j2 : Json) (u1 u2 : String) (s1 s2 : Int)
    (f1 f2 : FileSco) (i1 i2 : IndicatorObj) (r1 r2 : RelationshipObj)
    (h1 : createObjectsForEntry j1 u1 s1 =
      .ok [.file f1, .indicator i1, .relationship r1])
    (h2 : createObjectsForEntry j2 u2 s2 =
      .ok [.file f2, .indicator i2, .relationship r2])
    (hsha : f1.sha256 = f2.sha256)
    (hid : dictGet j1 "id" ≠ dictGet j2 "id") :
    f1.sid ≠ f2.sid ∧ i1.id = i2.id ∧ r1.id ≠ r2.id := by
  obtain ⟨fs1, hj1, -, -, hn1, -, -, -, -, -, -, hi1, -, -, -, hr1, -, -⟩ :=
    create_ok_parts h1
  obtain ⟨fs2, hj2, -, -, hn2, -, -, -, -, -, -, hi2, -, -, -, hr2, -, -⟩ :=
    create_ok_parts h2
  subst hj1 hj2
  have hfn : f1.fname ≠ f2.fname := by
    rw [hn1, hn2]
    intro hcontra
    apply hid
    simp only [dictGet, hcontra]
  have hsid : f1.sid ≠ f2.sid := by
    simp only [FileSco.sid, ne_eq, StixId.file.injEq, not_and]
    intro hf _
    exact hfn hf
  refine ⟨hsid, ?_, ?_⟩
  · rw [hi1, hi2, hsha]
  · rw [hr1, hr2]
    intro hcontra
    injection hcontra with hk hsrc htgt
    exact hsid htgt

def recA : Json := .obj [("id", .str "PKG-A"), ("database_specific",
  .obj [("malicious-packages-origins",
    .arr [.obj [("sha256", .str "cc77")]])])]

def recB : Json := .obj [("id", .str "PKG-B"), ("database_specific",
  .obj [("malicious-packages-origins",
    .arr [.obj [("sha256", .str "cc77")]])])]

def fA : FileSco := ⟨.str "PKG-A", .str "cc77", .str "Malicious package",
  [TLP_CLEAR_ID]⟩

def fB : FileSco := ⟨.str "PKG-B", .str "cc77", .str "Malicious package",
  [TLP_CLEAR_ID]⟩

def iA : IndicatorObj := ⟨.indicator (mkPattern "cc77"),
  "Malicious package PKG-A", .str "Malicious package", mkPattern "cc77",
  "stix", "uA", [TLP_CLEAR_ID], 80⟩

def iB : IndicatorObj := ⟨.indicator (mkPattern "cc77"),
  "Malicious package PKG-B", .str "Malicious package", mkPattern "cc77",
  "stix", "uB", [TLP_CLEAR_ID], 80⟩

def rA : RelationshipObj := ⟨.relationship "based-on"
    (.indicator (mkPattern "cc77")) (.file (.str "PKG-A") (.str "cc77")),
  "based-on", .indicator (mkPattern "cc77"),
  .file (.str "PKG-A") (.str "cc77"), [TLP_CLEAR_ID]⟩

def rB : RelationshipObj := ⟨.relationship "based-on"
    (.indicator (mkPattern "cc77")) (.file (.str "PKG-B") (.str "cc77")),
  "based-on", .indicator (mkPattern "cc77"),
  .file (.str "PKG-B") (.str "cc77"), [TLP_CLEAR_ID]⟩

/-- Witness for C10 at two concrete records sharing sha256 "cc77". -/
theorem c10_observable_identity_depends_on_record_id_witness :
    fA.sha256 = fB.sha256 ∧
    (fA.sid ≠ fB.sid ∧ iA.id = iB.id ∧ rA.id ≠ rB.id) :=
  ⟨rfl, c10_observable_identity_depends_on_record_id recA recB "uA" "uB"
    80 80 fA fB iA iB rA rB rfl rfl rfl
    (by intro hc; simp [dictGet, jLookup, recA, recB] at hc)⟩

/-! Claim C4. -/

/-- C4 as stated is refuted here: a record whose first provenance-origin
entry is not a JSON object ("first entry without a sha256" in the claim's
enumeration) makes the builder raise an uncaught AttributeError instead of
returning the empty sequence. -/
theorem c4_nonobject_origin_raises :
    createObjectsForEntry (.obj [("id", .str "C4"), ("database_specific",
        .obj [("malicious-packages-origins", .arr [.num 5])])]) "u" 80 =
      .error .attributeError ∧
    createObjectsForEntry (.obj [("id", .str "C4"), ("database_specific",
        .obj [("malicious-packages-origins", .arr [.num 5])])]) "u" 80 ≠
      .ok [] :=
  ⟨rfl, fun hc => Except.noConfusion ((rfl :
    createObjectsForEntry (.obj [("id", .str "C4"), ("database_specific",
        .obj [("malicious-packages-origins", .arr [.num 5])])]) "u" 80 =
      .error .attributeError).symm.trans hc)⟩

/-- C4 (amended): the builder either raises an error (possible when the
record, its database_specific, or the first origins entry is not a JSON
object), or returns a sequence of length exactly 0 or exactly 3 — the
empty sequence exactly when the record's id is absent/falsy or when the
extracted sha256 is not truthy (origins missing, not a list, empty, or
first entry an object without a truthy sha256), and otherwise exactly the
(observable, indicator, relationship) triple built from the extracted id,
summary and hash. -/
theorem c4_zero_or_three_or_raise (j : Json) (u : String) (s : Int) :
    (createObjectsForEntry j u s = .ok [] ∨
      (∃ e, createObjectsForEntry j u s = .error e) ∨
      (∃ f i r, createObjectsForEntry j u s =
        .ok [.file f, .indicator i, .relationship r])) ∧
    (∀ fs, j = .obj fs → truthy ((jLookup fs "id").getD .null) = false →
      createObjectsForEntry j u s = .ok []) ∧
    (∀ fs origins sha, j = .obj fs →
      pyOrGet ((jLookup fs "database_specific").getD (.obj []))
          "malicious-packages-origins" = .ok origins →
      extractSha origins = .ok sha → truthy sha = false →
      createObjectsForEntry j u s = .ok []) ∧
    (∀ fs origins sha, j = .obj fs →
      truthy ((jLookup fs "id").getD .null) = true →
      pyOrGet ((jLookup fs "database_specific").getD (.obj []))
          "malicious-packages-origins" = .ok origins →
      extractSha origins = .ok sha → truthy sha = true →
      createObjectsForEntry j u s =
        .ok (mkTriple ((jLookup fs "id").getD .null) (summaryOf fs)
          sha u s)) := by
  refine ⟨?_, ?_, ?_, ?_⟩
  · cases hx : createObjectsForEntry j u s with
    | error e => exact Or.inr (Or.inl ⟨e, rfl⟩)
    | ok l =>
      rcases create_ok_shape hx with hl | ⟨f, i, r, hl⟩
      · exact Or.inl (by rw [hl])
      · exact Or.inr (Or.inr ⟨f, i, r, by rw [hl]⟩)
  · intro fs hj hfalse
    subst hj
    rw [create_obj, if_pos (by simp [hfalse])]
  · intro fs origins sha hj hpo hsh hts
    subst hj
    by_cases hid : truthy ((jLookup fs "id").getD Json.null) = true
    · rw [create_obj, if_neg (by simp [hid])]
      simp only [hpo, hsh]
      rw [if_pos (by simp [hts])]
    · rw [create_obj, if_pos (by simp [hid])]
  · intro fs origins sha hj hid hpo hsh hts
    subst hj
    rw [create_obj, if_neg (by simp [hid])]
    simp only [hpo, hsh]
    rw [if_neg (by simp [hts])]

/-- Witness for C4 (amended) at three concrete records: an empty id, a
record with no hash data at all, and a fully valid record yielding the
exact triple. -/
theorem c4_zero_or_three_or_raise_witness :
    createObjectsForEntry (.obj [("id", .str "")]) "u4" 2 = .ok [] ∧
    createObjectsForEntry (.obj [("id", .str "K4")]) "u4" 2 = .ok [] ∧
    createObjectsForEntry (.obj [("id", .str "K4"), ("database_specific",
        .obj [("malicious-packages-origins",
          .arr [.obj [("sha256", .str "dd44")]])])]) "u4" 2 =
      .ok (mkTriple (.str "K4")
        (summaryOf [("id", .str "K4"), ("database_specific",
          .obj [("malicious-packages-origins",
            .arr [.obj [("sha256", .str "dd44")]])])])
        (.str "dd44") "u4" 2) :=
  ⟨(c4_zero_or_three_or_raise (.obj [("id", .str "")]) "u4" 2).2.1
      [("id", .str "")] rfl rfl,
    (c4_zero_or_three_or_raise (.obj [("id", .str "K4")]) "u4" 2).2.2.1
      [("id", .str "K4")] .null .null rfl rfl rfl rfl,
    (c4_zero_or_three_or_raise (.obj [("id", .str "K4"),
        ("database_specific", .obj [("malicious-packages-origins",
          .arr [.obj [("sha256", .str "dd44")]])])]) "u4" 2).2.2.2
      [("id", .str "K4"), ("database_specific",
        .obj [("malicious-packages-origins",
          .arr [.obj [("sha256", .str "dd44")]])])]
      (.arr [.obj [("sha256", .str "dd44")]]) (.str "dd44")
      rfl rfl rfl rfl rfl⟩

/-! Claim C7. -/

def rec7bad : Json := .obj [("id", .str "C7"), ("database_specific",
  .obj [("malicious-packages-origins", .arr [.str "zz"])])]

/-- C7 as stated is refuted here: a syntactically valid record whose first
provenance-origin entry is a string (not an object) raises an uncaught
AttributeError inside the per-file loop, which propagates out of the run —
so this per-record input aborts the run. -/
theorem c7_nonobject_origin_aborts_run :
    accumulateObjects [(some rec7bad, "u")] 80 = .error .attributeError ∧
    processOnceTail "H" "T" [(some rec7bad, "u")] 80 =
      .error .attributeError :=
  ⟨rfl, rfl⟩

/-- C7 (amended): malformed JSON (a swallowed parse failure), a missing or
falsy id, and a missing/empty/absent hash are absorbed at the record
boundary — the record contributes nothing and the run continues with the
remaining files — but a record on which the builder raises (e.g. a
non-object first origins entry) propagates its exception and aborts the
whole accumulation. -/
theorem c7_per_record_failures_absorbed (j j' : Json) (u : String)
    (rest : List (Option Json × String)) (score : Int) (e : PyError)
    (hok : createObjectsForEntry j u score = .ok [])
    (ht : truthy j' = true)
    (herr : createObjectsForEntry j' u score = .error e) :
    accumulateObjects ((none, u) :: rest) score =
      accumulateObjects rest score ∧
    accumulateObjects ((some j, u) :: rest) score =
      accumulateObjects rest score ∧
    accumulateObjects ((some j', u) :: rest) score = .error e := by
  refine ⟨rfl, ?_, ?_⟩
  · by_cases htj : truthy j = true
    · simp [accumulateObjects, htj, hok]
    · simp [accumulateObjects, htj]
  · simp [accumulateObjects, ht, herr]

/-- Witness for C7 (amended): a record with no id is skipped, a record
whose first origins entry is a list raises. -/
theorem c7_per_record_failures_absorbed_witness :
    accumulateObjects [(none, "w")] 5 = accumulateObjects [] 5 ∧
    accumulateObjects [(some (.obj [("summary", .str "s")]), "w")] 5 =
      accumulateObjects [] 5 ∧
    accumulateObjects [(some (.obj [("id", .str "W7"),
        ("database_specific", .obj [("malicious-packages-origins",
          .arr [.arr []])])]), "w")] 5 = .error .attributeError :=
  c7_per_record_failures_absorbed (.obj [("summary", .str "s")])
    (.obj [("id", .str "W7"), ("database_specific",
      .obj [("malicious-packages-origins", .arr [.arr []])])])
    "w" [] 5 .attributeError rfl rfl rfl

/-! Claim C1. -/

theorem dispatchTry_cons (x : StixObject) (xs : List StixObject) :
    dispatchTry (x :: xs) = ([], some PyError.nameError) := rfl

theorem chunksGo_replicate_step (n fuel k : Nat) (x : StixObject) :
    chunksGo n (fuel + 1) (List.replicate (k + 1) x) =
      List.replicate (min n (k + 1)) x ::
        chunksGo n fuel (List.replicate (k + 1 - n) x) := by
  rw [List.replicate_succ]
  show ((x :: List.replicate k x).take n) ::
      chunksGo n fuel ((x :: List.replicate k x).drop n) = _
  rw [← List.replicate_succ, List.take_replicate, List.drop_replicate]

def obj1 : StixObject := .file ⟨.null, .null, .null, []⟩

/-- C1: at the spec's 12000-object scenario the claim expects three sends
of sizes 5000, 5000 and 2000; the code would indeed slice those three
chunks, but line 310 evaluates the undefined name `chunck`, so the first
loop iteration raises NameError before any bundle is created or sent — the
dispatch step issues zero sends and the caught exception marks the run
failed. -/
theorem c1_dispatch_typo_sends_nothing :
    dispatchTry (List.replicate 12000 obj1) = ([], some PyError.nameError) ∧
    (chunksOf CHUNK_SIZE (List.replicate 12000 obj1)).map List.length =
      [5000, 5000, 2000] := by
  have hchunks : chunksOf CHUNK_SIZE (List.replicate 12000 obj1) =
      [List.replicate 5000 obj1, List.replicate 5000 obj1,
        List.replicate 2000 obj1] := by
    rw [chunksOf, List.length_replicate, CHUNK_SIZE]
    rw [show (12000 : Nat) = 11999 + 1 by norm_num]
    rw [chunksGo_replicate_step]
    norm_num
    rw [show (11999 : Nat) = 11998 + 1 by norm_num,
      show (7000 : Nat) = 6999 + 1 by norm_num]
    rw [chunksGo_replicate_step]
    norm_num
    rw [show (11998 : Nat) = 11997 + 1 by norm_num,
      show (2000 : Nat) = 1999 + 1 by norm_num]
    rw [chunksGo_replicate_step]
    norm_num
    simp [chunksGo]
  constructor
  · rw [show (12000 : Nat) = 11999 + 1 by norm_num, List.replicate_succ]
    exact dispatchTry_cons obj1 (List.replicate 11999 obj1)
  · rw [hchunks]
    simp only [List.map_cons, List.map_nil, List.length_replicate]

/-! Claim C2. -/

/-- C2: whenever the guarded dispatch block of a run raises (in particular
whenever a chunk send would fail), `_process_once` returns early via the
except branch of lines 321-328 — the work is marked failed, `set_state` is
never called, and the checkpoint after the run equals the checkpoint
before the run. -/
theorem c2_no_checkpoint_advance_on_dispatch_failure
    (prev : Option (List (String × String))) (head now : String)
    (files : List (Option Json × String)) (score : Int)
    (objs : List StixObject) (e : PyError)
    (hacc : accumulateObjects files score = .ok objs)
    (herr : (dispatchTry objs).2 = some e) :
    processOnceTail head now files score =
      .ok ⟨(dispatchTry objs).1, none, false⟩ ∧
    stateAfter prev ⟨(dispatchTry objs).1, none, false⟩ = prev := by
  have hne : objs.isEmpty = false := by
    cases objs with
    | nil => simp [dispatchTry, chunksOf, chunksGo, runDispatchLoop] at herr
    | cons x xs => rfl
  refine ⟨?_, rfl⟩
  rw [processOnceTail, hacc]
  simp only [hne, Bool.false_eq_true, if_false]
  rcases hdp : dispatchTry objs with ⟨sent, oe⟩
  rw [hdp] at herr
  simp only at herr
  subst herr
  rfl

def rec2 : Json := .obj [("id", .str "W2"), ("summary", .str "pkg w2"),
  ("database_specific", .obj [("malicious-packages-origins",
    .arr [.obj [("sha256", .str "aa55")]])])]

def objs2 : List StixObject := mkTriple (.str "W2") (.str "pkg w2")
  (.str "aa55") "u2" 7

/-- Witness for C2: one parsed record accumulates a three-object list, the
dispatch block raises on its first chunk, and the previous checkpoint
survives the run unchanged. -/
theorem c2_no_checkpoint_advance_on_dispatch_failure_witness :
    processOnceTail "NEWHEAD" "T1" [(some rec2, "u2")] 7 =
      .ok ⟨(dispatchTry objs2).1, none, false⟩ ∧
    stateAfter (some [("last_commit", "OLDHEAD"), ("last_run", "T0")])
      ⟨(dispatchTry objs2).1, none, false⟩ =
      some [("last_commit", "OLDHEAD"), ("last_run", "T0")] :=
  c2_no_checkpoint_advance_on_dispatch_failure
    (some [("last_commit", "OLDHEAD"), ("last_run", "T0")])
    "NEWHEAD" "T1" [(some rec2, "u2")] 7 objs2 .nameError rfl rfl

/-! Claim C8. -/

/-- C8 as stated is refuted here: the checkpoint map the code reads and
writes is keyed `last_commit`, not `last_revision` — a successful empty
run writes a map with no `last_revision` key at all, and a state stored
under `last_revision` is invisible to the run-start read of
`state.get("last_commit")`. -/
theorem c8_keys_are_last_commit_not_last_revision :
    processOnceTail "HEADREV" "2026-01-01T00:00:00+00:00" [] 80 =
      .ok ⟨[], some [("last_commit", "HEADREV"),
        ("last_run", "2026-01-01T00:00:00+00:00")], true⟩ ∧
    kvLookup [("last_commit", "HEADREV"),
      ("last_run", "2026-01-01T00:00:00+00:00")] "last_revision" = none ∧
    readLastCommit (some [("last_revision", "HEADREV")]) = none :=
  ⟨rfl, rfl, rfl⟩

/-- C8 (amended): whenever a run writes the connector state at all, the
map written is exactly `{"last_commit": current HEAD, "last_run": now}` —
the recognized keys are `last_commit` and `last_run`, and the revision
value stored under `last_commit` equals the current HEAD revision of the
run. -/
theorem c8_state_written_keys (head now : String)
    (files : List (Option Json × String)) (score : Int) (out : RunOutcome)
    (h : processOnceTail head now files score = .ok out)
    (hw : out.stateWritten ≠ none) :
    out.stateWritten = some [("last_commit", head), ("last_run", now)] := by
  rw [processOnceTail] at h
  cases hacc : accumulateObjects files score with
  | error e =>
    rw [hacc] at h
    exact absurd h (by simp)
  | ok objs =>
    rw [hacc] at h
    by_cases he : objs.isEmpty = true
    · simp only [he, if_true] at h
      injection h with h
      rw [← h]
    · simp only [he, Bool.false_eq_true, if_false] at h
      rcases hdp : dispatchTry objs with ⟨sent, oe⟩
      rw [hdp] at h
      cases oe with
      | some e =>
        simp only at h
        injection h with h
        rw [← h] at hw
        exact absurd rfl hw
      | none =>
        simp only at h
        injection h with h
        rw [← h]

/-- Witness for C8 (amended) at a successful empty run. -/
theorem c8_state_written_keys_witness :
    RunOutcome.stateWritten
        ⟨[], some [("last_commit", "H8"), ("last_run", "T8")], true⟩ =
      some [("last_commit", "H8"), ("last_run", "T8")] :=
  c8_state_written_keys "H8" "T8" [] 5
    ⟨[], some [("last_commit", "H8"), ("last_run", "T8")], true⟩ rfl
    (by simp)

/-! Claim C5. -/

theorem collectJson_mem (L : List (String × List String)) (p : String) :
    p ∈ collectJson L ↔
      ∃ root fnames f, (root, fnames) ∈ L ∧ f ∈ fnames ∧
        strEndsWith f ".json" = true ∧ p = root ++ "/" ++ f := by
  induction L with
  | nil => simp [collectJson]
  | cons hd rest ih =>
    obtain ⟨root, fnames⟩ := hd
    simp only [collectJson, List.mem_append, List.mem_map, List.mem_filter,
      ih, List.mem_cons]
    constructor
    · rintro (⟨f, ⟨hf, hj⟩, hp⟩ | ⟨r, fn, f, hm, hf, hj, hp⟩)
      · exact ⟨root, fnames, f, Or.inl rfl, hf, hj, hp.symm⟩
      · exact ⟨r, fn, f, Or.inr hm, hf, hj, hp⟩
    · rintro ⟨r, fn, f, hm | hm, hf, hj, hp⟩
      · rw [Prod.mk.injEq] at hm
        obtain ⟨hr, hfn⟩ := hm
        subst hr hfn
        exact Or.inl ⟨f, ⟨hf, hj⟩, hp.symm⟩
      · exact Or.inr ⟨r, fn, f, hm, hf, hj, hp⟩

/-- C5: with no prior checkpoint the resolver performs a full backfill —
a path is returned exactly when the recursive directory walk of the feed
subtree lists it and its file name has the `.json` extension, with no
condition on modification time. -/
theorem c5_full_backfill (repo : Repo) (head : String) (p : String) :
    p ∈ getChangedFiles repo none head ↔
      ∃ root fnames f, (root, fnames) ∈ repo.osWalkMalicious ∧
        f ∈ fnames ∧ strEndsWith f ".json" = true ∧
        p = root ++ "/" ++ f :=
  collectJson_mem repo.osWalkMalicious p

/-! Claim C6. -/

def repo6 : Repo := ⟨"repo", [],
  fun r => if r = "A" then [("osv/malicious/npm/x.json", "blob")] else []⟩

/-- C6 as stated is refuted here: between checkpoint revision "A" and
current revision "B" the only change is the DELETION of
`osv/malicious/npm/x.json`, yet the resolver surfaces that path — `git
diff --name-only` lists deleted paths too, so the result is not limited to
added or modified records. -/
theorem c6_deleted_record_is_surfaced :
    getChangedFiles repo6 (some "A") "B" =
      ["repo/osv/malicious/npm/x.json"] ∧
    kvLookup (repo6.rev "A") "osv/malicious/npm/x.json" = some "blob" ∧
    kvLookup (repo6.rev "B") "osv/malicious/npm/x.json" = none :=
  ⟨rfl, rfl, rfl⟩

/-- C6 (amended): with a prior checkpoint at revision A and current
revision B, the resolver returns exactly the paths under the feed subtree
whose content differs between A and B — added, modified, or deleted —
filtered to the `.json` extension and prefixed with the local checkout
path. -/
theorem c6_changed_paths_characterization (repo : Repo) (a b : String)
    (q : String) :
    q ∈ getChangedFiles repo (some a) b ↔
      ∃ p, (p ∈ (repo.rev a).map Prod.fst ∨ p ∈ (repo.rev b).map Prod.fst) ∧
        underPathspec p = true ∧
        kvLookup (repo.rev a) p ≠ kvLookup (repo.rev b) p ∧
        strEndsWith p ".json" = true ∧
        q = repo.localPath ++ "/" ++ p := by
  simp only [getChangedFiles, gitDiffNameOnly, List.mem_map,
    List.mem_filter, List.mem_dedup, List.mem_append, Bool.and_eq_true,
    Bool.not_eq_true', beq_eq_false_iff_ne, ne_eq]
  constructor
  · rintro ⟨p, ⟨⟨hm, hps, hne⟩, hj⟩, hq⟩
    exact ⟨p, hm, hps, hne, hj, hq.symm⟩
  · rintro ⟨p, hm, hps, hne, hj, hq⟩
    exact ⟨p, ⟨⟨hm, hps, hne⟩, hj⟩, hq.symm⟩
